import Mathlib

/-!
Shallow embedding of the authentication/registration flow of the
`lts33/answerlist` React client.

Embedded source files:
- `src/components/Login.jsx` — the auth flow controller: `handleGoogleSuccess`,
  `handleRegisterSubmit`, `handleLoginSuccess`, and the rendered controls;
- `src/App.jsx` — startup load of the persisted session, logout, and the
  choice of top-level view;
- `src/components/Dashboard.jsx` line 128 — the display-name fallback.

JavaScript values that flow through the response bodies are modelled by
`JsVal` (a string, a number, a boolean, `null`, or an absent field).
`localStorage` is modelled by `Storage`; the serialized `user_data` string by
`StoredBlob`: `userJson u` is the result of `JSON.stringify` on the user
record `u` (which parses back to `u`), `jsonOther v` some other valid JSON
text parsing to `v`, and `corrupt s` a string that is not valid JSON (so
`JSON.parse` throws on it). The `if (token && storedUser)` startup guard is a
JavaScript truthiness test, so an empty stored string counts as absent.
Axios call outcomes are modelled by `HttpResult`: `ok` carries the HTTP status
and the parsed body (`none` for a falsy body), `err` carries
`err.response.status` when a response exists and `none` for a network error
(axios with its default `validateStatus` resolves exactly the 2xx responses
and rejects the rest).
-/

/-- A JavaScript value as it appears in a JSON response field:
a string, a number, a boolean, `null`, or `undefined` (field absent). -/
inductive JsVal where
  | vstr (s : String)
  | vnum (n : Int)
  | vbool (b : Bool)
  | vnull
  | vundefined
deriving DecidableEq, Repr

/-- `typeof v === 'string'` for a `JsVal`. -/
def JsVal.isString : JsVal → Bool
  | .vstr _ => true
  | _ => false

/-- String coercion applied by `localStorage.setItem` to a non-string value. -/
def JsVal.coerceToString : JsVal → String
  | .vstr s => s
  | .vnum n => toString n
  | .vbool b => if b then "true" else "false"
  | .vnull => "null"
  | .vundefined => "undefined"

/-- A JavaScript whitespace character as recognized by `String.prototype.trim`:
the ECMAScript WhiteSpace set (tab, vertical tab, form feed, space, NBSP,
ZWNBSP U+FEFF, and the Unicode space separators U+1680, U+2000-U+200A,
U+202F, U+205F, U+3000) together with the LineTerminator set (line feed,
carriage return, LS U+2028, PS U+2029). -/
def jsIsWhitespace (c : Char) : Bool :=
  c == ' ' || c == '\t' || c == '\n' || c == '\r' ||
  c == Char.ofNat 11 || c == Char.ofNat 12 || c == Char.ofNat 160 ||
  c == Char.ofNat 5760 ||
  (8192 ≤ c.toNat && c.toNat ≤ 8202) ||
  c == Char.ofNat 8232 || c == Char.ofNat 8233 ||
  c == Char.ofNat 8239 || c == Char.ofNat 8287 ||
  c == Char.ofNat 12288 || c == Char.ofNat 65279

/-- JavaScript `s.trim()`: strip leading and trailing whitespace. -/
def jsTrim (s : String) : String :=
  String.mk (((s.data.dropWhile jsIsWhitespace).reverse.dropWhile jsIsWhitespace).reverse)

/-- The fields of an exchange response body the controller reads:
`status`, `access_token`, `username` (absent fields are `vundefined`). -/
structure RespBody where
  status : JsVal
  access_token : JsVal
  username : JsVal
deriving DecidableEq, Repr

/-- Outcome of an `axios.post` call: `ok` for a resolved promise (HTTP status
and parsed body, `none` standing for a falsy `res.data`); `err` for a
rejection, carrying `err.response.status` when a response exists (`none`
models a network error with no response). -/
inductive HttpResult where
  | ok (httpStatus : Nat) (data : Option RespBody)
  | err (responseStatus : Option Nat)
deriving DecidableEq, Repr

/-- The user record built by `handleLoginSuccess` and stored under
`user_data`: `{ name: ..., token: ... }`. -/
structure UserData where
  name : JsVal
  token : JsVal
deriving DecidableEq, Repr

/-- The serialized string stored under the `user_data` key: the
`JSON.stringify` image of a user record, some other valid JSON text whose
parse is the carried value (e.g. `"null"`, `"5"`; no JSON text parses to
`undefined`, so `jsonOther .vundefined` does not occur), or a string that is
not valid JSON (`corrupt ""` models the stored empty string, which is both
invalid JSON and falsy). -/
inductive StoredBlob where
  | userJson (u : UserData)
  | jsonOther (v : JsVal)
  | corrupt (s : String)
deriving DecidableEq, Repr

/-- JavaScript truthiness of a parsed JSON value: `null`, `undefined`, `0`,
`""` and `false` are falsy. -/
def jsTruthyVal : JsVal → Bool
  | .vstr s => !(s == "")
  | .vnum n => !(n == 0)
  | .vbool b => b
  | .vnull => false
  | .vundefined => false

/-- Truthiness of the raw string a blob stands for: every valid JSON text is
a non-empty string, so only an empty corrupt string is falsy. -/
def blobTruthy : StoredBlob → Bool
  | .userJson _ => true
  | .jsonOther _ => true
  | .corrupt s => !(s == "")

/-- The `user` value `App` obtains from a parsed non-record JSON value: a
falsy parse leaves the host logged out; a truthy non-record mounts the
Dashboard with a user whose `name` and `token` properties are `undefined`
(the only observations the application makes of it). -/
def parseNonRecord (v : JsVal) : Option UserData :=
  if jsTruthyVal v then some { name := .vundefined, token := .vundefined } else none

/-- The two `localStorage` keys the flow uses. -/
structure Storage where
  access_token : Option String
  user_data : Option StoredBlob
deriving DecidableEq, Repr

/-- `localStorage` with both keys absent. -/
def emptyStorage : Storage := { access_token := none, user_data := none }

/-- The `useState` variables of the `Login` component
(`src/components/Login.jsx` lines 9-13). -/
structure LoginState where
  error : String
  isLoggingIn : Bool
  isRegistering : Bool
  displayName : String
  googleToken : Option String
deriving DecidableEq, Repr

/-- The initial `Login` component state. -/
def initialLoginState : LoginState :=
  { error := "", isLoggingIn := false, isRegistering := false,
    displayName := "", googleToken := none }

/-- The observable world the handlers act on: the `Login` component state,
`localStorage`, and the host's `user` state (`setUser`). -/
structure World where
  login : LoginState
  store : Storage
  user : Option UserData
deriving DecidableEq, Repr

/-- The world at a fresh, logged-out start. -/
def initialWorld : World :=
  { login := initialLoginState, store := emptyStorage, user := none }

/-- The body of the JSON `POST` to `/auth/google`: `{ token, name? }`.
`token` is `none` when `googleToken` is still `null`. -/
structure ExchangeRequest where
  token : Option String
  name : Option String
deriving DecidableEq, Repr

/-- `handleLoginSuccess` (`Login.jsx` lines 79-94): substitute `"User"` for a
non-string username, store the access token and the serialized user record,
call `setUser`, clear `isLoggingIn`. -/
def handleLoginSuccess (data : RespBody) (w : World) : World :=
  let safeUsername : String :=
    match data.username with
    | .vstr s => s
    | _ => "User"
  let userData : UserData := { name := .vstr safeUsername, token := data.access_token }
  { login := { w.login with isLoggingIn := false },
    store := { access_token := some data.access_token.coerceToString,
               user_data := some (.userJson userData) },
    user := some userData }

/-- The synchronous prefix of `handleGoogleSuccess` (`Login.jsx` lines 16-17),
the world while the first exchange request is in flight:
`setIsLoggingIn(true); setError('')`. -/
def googleStart (w : World) : World :=
  { w with login := { w.login with isLoggingIn := true, error := "" } }

/-- The continuation of `handleGoogleSuccess` once the first exchange call
settles (`Login.jsx` lines 28-48). -/
def googleResolve (credential : String) (resp : HttpResult) (w : World) : World :=
  match resp with
  | .ok _ data =>
    match data with
    | some body =>
      if body.status = .vstr "register_required" then
        { w with login := { w.login with googleToken := some credential, isRegistering := true, isLoggingIn := false } }
      else if body.status = .vstr "login_success" then
        handleLoginSuccess body w
      else
        { w with login := { w.login with error := "Unexpected response from server.", isLoggingIn := false } }
    | none =>
      { w with login := { w.login with error := "Unexpected response from server.", isLoggingIn := false } }
  | .err responseStatus =>
    let msg := if responseStatus = some 202 then "Authentication failed with backend."
               else "Authentication failed."
    { w with login := { w.login with error := msg, isLoggingIn := false } }

/-- `handleGoogleSuccess` as a whole, parameterised by the outcome of the one
request it issues; returns the new world and that request's body. -/
def handleGoogleSuccess (credential : String) (resp : HttpResult) (w : World) :
    World × ExchangeRequest :=
  (googleResolve credential resp (googleStart w),
   { token := some credential, name := none })

/-- The continuation of `handleRegisterSubmit` once the second exchange call
settles (`Login.jsx` lines 66-76). -/
def registerResolve (resp : HttpResult) (w : World) : World :=
  match resp with
  | .ok _ data =>
    match data with
    | some body =>
      if body.status = .vstr "login_success" then
        handleLoginSuccess body w
      else
        { w with login := { w.login with error := "Registration failed.", isLoggingIn := false } }
    | none =>
      { w with login := { w.login with error := "Registration failed.", isLoggingIn := false } }
  | .err _ =>
    { w with login := { w.login with error := "Registration failed.", isLoggingIn := false } }

/-- `handleRegisterSubmit` (`Login.jsx` lines 51-77): a blank trimmed name is
rejected locally with an error and no request; otherwise the second exchange
request `{token: googleToken, name: displayName}` is issued and its outcome
handled. Returns the new world and the request issued, if any. -/
def handleRegisterSubmit (resp : HttpResult) (w : World) :
    World × Option ExchangeRequest :=
  if jsTrim w.login.displayName = "" then
    ({ w with login := { w.login with error := "Please enter a display name." } }, none)
  else
    let inFlight : World := { w with login := { w.login with isLoggingIn := true } }
    (registerResolve resp inFlight,
     some { token := w.login.googleToken, name := some w.login.displayName })

/-- Startup load in `App` (`App.jsx` lines 7-21): only when both stored
values are truthy (`if (token && storedUser)` — `getItem` yields `null` for
an absent key, and the empty string is also falsy) is the stored record
parsed; a parse failure removes both keys. Returns the storage after the
load and the initial `user` state. -/
def appInit (st : Storage) : Storage × Option UserData :=
  match st.access_token, st.user_data with
  | some tok, some blob =>
    if tok != "" && blobTruthy blob then
      match blob with
      | .userJson u => (st, some u)
      | .jsonOther v => (st, parseNonRecord v)
      | .corrupt _ => (emptyStorage, none)
    else (st, none)
  | _, _ => (st, none)

/-- `handleLogout` (`App.jsx` lines 23-28): remove both keys, clear `user`. -/
def handleLogout (_st : Storage) (_u : Option UserData) : Storage × Option UserData :=
  (emptyStorage, none)

/-- `App`'s render (`App.jsx` lines 30-38): the authenticated `Dashboard` view
is mounted exactly when `user` is set. -/
def mountsDashboard (u : Option UserData) : Bool :=
  u.isSome

/-- `Dashboard.jsx` line 128: the rendered display name falls back to
`"User"` when `user.name` is not a string. -/
def dashboardDisplayName (u : UserData) : String :=
  match u.name with
  | .vstr s => s
  | _ => "User"

/-- The controls `Login`'s render emits (`Login.jsx` lines 100-185):
the registration form with its submit button when `isRegistering`, otherwise
the Google widget; the submit button carries `disabled={isLoggingIn}`, while
the `GoogleLogin` element is given no disabled property at all. -/
structure LoginView where
  registerFormShown : Bool
  submitButtonShown : Bool
  submitButtonDisabled : Bool
  googleWidgetShown : Bool
  googleWidgetDisabled : Bool
  errorShown : Bool
deriving DecidableEq, Repr

/-- `Login`'s rendered controls as a function of its state. -/
def loginView (s : LoginState) : LoginView :=
  { registerFormShown := s.isRegistering,
    submitButtonShown := s.isRegistering,
    submitButtonDisabled := s.isLoggingIn,
    googleWidgetShown := !s.isRegistering,
    googleWidgetDisabled := false,
    errorShown := s.error != "" }

/-- "A Session exists in durable storage": both `localStorage` keys hold a
value. -/
def sessionStored (st : Storage) : Prop :=
  st.access_token.isSome = true ∧ st.user_data.isSome = true

instance (st : Storage) : Decidable (sessionStored st) := by
  unfold sessionStored; infer_instance

/-- The storage/authentication equivalence of the spec's Session invariant. -/
def sessionIffAuth (st : Storage) (u : Option UserData) : Prop :=
  sessionStored st ↔ mountsDashboard u = true

instance (st : Storage) (u : Option UserData) : Decidable (sessionIffAuth st u) := by
  unfold sessionIffAuth; infer_instance

/-- The response body `{status: "register_required"}` with no other fields. -/
def registerRequiredBody : RespBody :=
  { status := .vstr "register_required", access_token := .vundefined,
    username := .vundefined }

/-- The world after the first exchange call resolves with body
`{status: "register_required"}`. -/
def afterRegisterRequired (credential : String) (httpStatus : Nat) (w : World) : World :=
  (handleGoogleSuccess credential (.ok httpStatus (some registerRequiredBody)) w).1

/-- The display-name input's `onChange` handler (`Login.jsx` lines 134-137):
update the draft name and clear any FlowError. -/
def typeDisplayName (value : String) (w : World) : World :=
  { w with login := { w.login with displayName := value, error := "" } }

/-- Storage contents on which the startup load keeps the Session equivalence:
a key absent, or a non-empty access token together with a `user_data` that is
either a serialized user record or a non-empty string that is not valid JSON.
Excluded are the degenerate contents — an empty-string token, an empty-string
`user_data`, or valid JSON of a non-record — where the truthiness guard skips
both the parse and the cleanup. -/
def regularStorage (st : Storage) : Bool :=
  match st.access_token, st.user_data with
  | none, _ => true
  | _, none => true
  | some tok, some blob =>
    tok != "" &&
    (match blob with
     | .userJson _ => true
     | .jsonOther _ => false
     | .corrupt s => s != "")

/-- C8: with assertion `"tok-A"` and first exchange response
`{status:"login_success", access_token:"abc", username:"Ada"}`, the flow
terminates in Authenticated and the persisted Session is
`{displayName:"Ada", accessToken:"abc"}`. -/
theorem c8_concrete_login_scenario :
    let resp : HttpResult :=
      .ok 200 (some { status := .vstr "login_success",
                      access_token := .vstr "abc", username := .vstr "Ada" })
    let w := (handleGoogleSuccess "tok-A" resp initialWorld).1
    w.user = some { name := .vstr "Ada", token := .vstr "abc" } ∧
    w.store.access_token = some "abc" ∧
    w.store.user_data = some (.userJson { name := .vstr "Ada", token := .vstr "abc" }) ∧
    mountsDashboard w.user = true ∧
    w.login.error = "" := by
  decide

/-- C1: evaluation of the code at the input of the repo's own test
`handles direct token response successfully`: a 200 response whose body
carries `access_token` and `username` but no `status` field does NOT reach
Authenticated — the controller sets the FlowError
`"Unexpected response from server."`, persists nothing and notifies no one,
contradicting the claim (and the test). -/
theorem c1_token_without_status_is_rejected :
    let body : RespBody := { status := .vundefined,
                             access_token := .vstr "valid_token",
                             username := .vstr "Test User" }
    let w := (handleGoogleSuccess "fake_token" (.ok 200 (some body)) initialWorld).1
    w.login.error = "Unexpected response from server." ∧
    w.user = none ∧
    w.store = emptyStorage ∧
    mountsDashboard w.user = false := by
  decide

/-- C2: evaluation of the code at an HTTP 401 rejection (the input of the
repo's own test `handles 401 Unauthorized`). Both exchange calls do reach the
Failed state (never AwaitingProfile or Authenticated), but the FlowError is
the same generic message produced for a plain network failure — the code's
only special case in the catch block tests for status 202, so 401 is not
distinguished, contradicting the claim (and the test, which expects
`"Authentication failed: Invalid credentials."`). -/
theorem c2_unauthorized_gets_generic_message :
    let w401 : World := (handleGoogleSuccess "fake_token" (.err (some 401)) initialWorld).1
    let wNet : World := (handleGoogleSuccess "fake_token" (.err none) initialWorld).1
    let awaiting : World :=
      { login := { error := "", isLoggingIn := false, isRegistering := true,
                   displayName := "Grace", googleToken := some "tok-B" },
        store := emptyStorage, user := none }
    let r401 := (handleRegisterSubmit (.err (some 401)) awaiting).1
    let rNet := (handleRegisterSubmit (.err none) awaiting).1
    w401.login.error = "Authentication failed." ∧
    w401.login.error = wNet.login.error ∧
    w401.login.isRegistering = false ∧ w401.user = none ∧
    r401.login.error = "Registration failed." ∧
    r401.login.error = rNet.login.error ∧
    r401.user = none := by
  decide

/-- C10 fails on the code at an empty-string `access_token`: storage holds an
access token value (`""`) and a stored `user_data` that is not valid JSON,
yet the `if (token && storedUser)` truthiness guard skips the parse, so both
keys are left in place (only the start is still unauthenticated), refuting
the claim that both keys are removed. -/
theorem c10_empty_token_skips_cleanup :
    let st : Storage := { access_token := some "",
                          user_data := some (.corrupt "oops") }
    (appInit st).1 = st ∧
    (appInit st).1 ≠ emptyStorage ∧
    (appInit st).2 = none := by
  decide

/-- C10 as amended: if at startup durable storage holds a non-empty
`access_token` and a non-empty `user_data` string that is not valid JSON,
both keys are removed and the application starts unauthenticated; if either
stored value is the empty string, the truthiness guard skips the parse and
leaves both keys in place, while the application still starts
unauthenticated. -/
theorem c10_corrupt_user_data_cleared_when_truthy (tok s : String)
    (htok : tok ≠ "") (hs : s ≠ "") :
    appInit { access_token := some tok, user_data := some (.corrupt s) }
        = (emptyStorage, none) ∧
    mountsDashboard (appInit { access_token := some tok,
                               user_data := some (.corrupt s) }).2 = false ∧
    (appInit { access_token := some "", user_data := some (.corrupt s) }).1
        = { access_token := some "", user_data := some (.corrupt s) } ∧
    (appInit { access_token := some "", user_data := some (.corrupt s) }).2 = none ∧
    (appInit { access_token := some tok, user_data := some (.corrupt "") }).1
        = { access_token := some tok, user_data := some (.corrupt "") } ∧
    (appInit { access_token := some tok, user_data := some (.corrupt "") }).2 = none := by
  refine ⟨?_, ?_, ?_, ?_, ?_, ?_⟩ <;>
    simp [appInit, blobTruthy, htok, hs, mountsDashboard]

/-- C10 amended witness: the statement at a concrete non-empty token and a
concrete non-empty invalid-JSON string. -/
theorem c10_corrupt_user_data_cleared_when_truthy_witness :
    appInit { access_token := some "abc", user_data := some (.corrupt "oops") }
        = (emptyStorage, none) ∧
    mountsDashboard (appInit { access_token := some "abc",
                               user_data := some (.corrupt "oops") }).2 = false ∧
    (appInit { access_token := some "", user_data := some (.corrupt "oops") }).1
        = { access_token := some "", user_data := some (.corrupt "oops") } ∧
    (appInit { access_token := some "", user_data := some (.corrupt "oops") }).2 = none ∧
    (appInit { access_token := some "abc", user_data := some (.corrupt "") }).1
        = { access_token := some "abc", user_data := some (.corrupt "") } ∧
    (appInit { access_token := some "abc", user_data := some (.corrupt "") }).2 = none :=
  c10_corrupt_user_data_cleared_when_truthy "abc" "oops" (by decide) (by decide)

/-- C7 fails on the code: in the Exchanging state (first request in flight,
`isLoggingIn` set, not registering) the credential-provider widget is still
rendered and is NOT disabled — the `GoogleLogin` element is given no disabled
property — so it is false that both triggering controls are disabled while a
request is in flight. -/
theorem c7_widget_enabled_while_exchanging :
    let exchanging := (googleStart initialWorld).login
    exchanging.isLoggingIn = true ∧
    exchanging.isRegistering = false ∧
    (loginView exchanging).googleWidgetShown = true ∧
    (loginView exchanging).googleWidgetDisabled = false := by
  decide

/-- C7 as amended: while Submitting, the registration submit button is
disabled (it carries `disabled={isLoggingIn}`); but while Exchanging the
credential-provider widget remains rendered without a disabled flag, so only
the submit control is guarded against a second concurrent invocation. -/
theorem c7_only_submit_control_disabled (s : LoginState)
    (hin : s.isLoggingIn = true) :
    (s.isRegistering = true →
      (loginView s).submitButtonShown = true ∧
      (loginView s).submitButtonDisabled = true) ∧
    (s.isRegistering = false →
      (loginView s).googleWidgetShown = true ∧
      (loginView s).googleWidgetDisabled = false) := by
  refine ⟨fun hr => ?_, fun hr => ?_⟩ <;> simp [loginView, hin, hr]

/-- C7 amended witness: the amended statement at the concrete Submitting
state reached from a fresh registration prompt. -/
theorem c7_only_submit_control_disabled_witness :
    let s : LoginState := { error := "", isLoggingIn := true,
                            isRegistering := true, displayName := "Grace",
                            googleToken := some "tok-B" }
    (s.isRegistering = true →
      (loginView s).submitButtonShown = true ∧
      (loginView s).submitButtonDisabled = true) ∧
    (s.isRegistering = false →
      (loginView s).googleWidgetShown = true ∧
      (loginView s).googleWidgetDisabled = false) :=
  c7_only_submit_control_disabled
    { error := "", isLoggingIn := true, isRegistering := true,
      displayName := "Grace", googleToken := some "tok-B" } rfl

/-- C3: a `register_required` first response moves the controller to
AwaitingProfile (registering, not in flight), retains the identity assertion
in `googleToken`, touches neither storage nor the host user; submitting a
whitespace-only draft issues no second request, and submitting a non-empty
draft issues exactly `{token: <the same assertion>, name: <the name>}`. -/
theorem c3_register_required_awaits_profile
    (credential : String) (httpStatus : Nat) (w : World)
    (name ws : String) (resp respw : HttpResult)
    (hname : jsTrim name ≠ "") (hws : jsTrim ws = "") :
    (afterRegisterRequired credential httpStatus w).login.isRegistering = true ∧
    (afterRegisterRequired credential httpStatus w).login.isLoggingIn = false ∧
    (afterRegisterRequired credential httpStatus w).login.googleToken = some credential ∧
    (afterRegisterRequired credential httpStatus w).store = w.store ∧
    (afterRegisterRequired credential httpStatus w).user = w.user ∧
    (handleRegisterSubmit respw
        (typeDisplayName ws (afterRegisterRequired credential httpStatus w))).2 = none ∧
    (handleRegisterSubmit resp
        (typeDisplayName name (afterRegisterRequired credential httpStatus w))).2
      = some { token := some credential, name := some name } := by
  refine ⟨?_, ?_, ?_, ?_, ?_, ?_, ?_⟩ <;>
    simp [afterRegisterRequired, handleGoogleSuccess, googleStart, googleResolve,
          registerRequiredBody, typeDisplayName, handleRegisterSubmit, hname, hws]

/-- C3 witness: the statement at assertion `"tok-B"`, HTTP 200, a fresh
world, submitted name `"Grace"`, whitespace draft `" "`. -/
theorem c3_register_required_awaits_profile_witness :
    jsTrim "Grace" ≠ "" ∧ jsTrim " " = "" ∧
    ((afterRegisterRequired "tok-B" 200 initialWorld).login.isRegistering = true ∧
     (afterRegisterRequired "tok-B" 200 initialWorld).login.isLoggingIn = false ∧
     (afterRegisterRequired "tok-B" 200 initialWorld).login.googleToken = some "tok-B" ∧
     (afterRegisterRequired "tok-B" 200 initialWorld).store = initialWorld.store ∧
     (afterRegisterRequired "tok-B" 200 initialWorld).user = initialWorld.user ∧
     (handleRegisterSubmit (.err none)
         (typeDisplayName " " (afterRegisterRequired "tok-B" 200 initialWorld))).2 = none ∧
     (handleRegisterSubmit (.ok 200 none)
         (typeDisplayName "Grace" (afterRegisterRequired "tok-B" 200 initialWorld))).2
       = some { token := some "tok-B", name := some "Grace" }) :=
  ⟨by decide, by decide,
   c3_register_required_awaits_profile "tok-B" 200 initialWorld "Grace" " "
     (.ok 200 none) (.err none) (by decide) (by decide)⟩

/-- C5: a whitespace-only (or empty) display name submitted while
AwaitingProfile is rejected locally: no request is issued, the state stays
AwaitingProfile with the FlowError set, and storage and the host user are
untouched; conversely any submission that does reach the backend had a name
with at least one non-whitespace character. -/
theorem c5_blank_name_rejected_locally (w : World) (resp : HttpResult)
    (hreg : w.login.isRegistering = true)
    (hblank : jsTrim w.login.displayName = "") :
    (handleRegisterSubmit resp w).2 = none ∧
    (handleRegisterSubmit resp w).1.login.isRegistering = true ∧
    (handleRegisterSubmit resp w).1.login.isLoggingIn = w.login.isLoggingIn ∧
    (handleRegisterSubmit resp w).1.login.error = "Please enter a display name." ∧
    (handleRegisterSubmit resp w).1.store = w.store ∧
    (handleRegisterSubmit resp w).1.user = w.user ∧
    (∀ (w2 : World) (r2 : HttpResult),
      ((handleRegisterSubmit r2 w2).2).isSome = true →
      jsTrim w2.login.displayName ≠ "") := by
  refine ⟨?_, ?_, ?_, ?_, ?_, ?_, fun w2 r2 h hc => ?_⟩ <;>
    first
    | simp [handleRegisterSubmit, hblank, hreg]
    | simp [handleRegisterSubmit, hc] at h

/-- C5 witness: the statement at a concrete AwaitingProfile world whose
draft name is a single space. -/
theorem c5_blank_name_rejected_locally_witness :
    let awaiting : World :=
      { login := { error := "", isLoggingIn := false, isRegistering := true,
                   displayName := " ", googleToken := some "tok-B" },
        store := emptyStorage, user := none }
    (handleRegisterSubmit (.err none) awaiting).2 = none ∧
    (handleRegisterSubmit (.err none) awaiting).1.login.isRegistering = true ∧
    (handleRegisterSubmit (.err none) awaiting).1.login.isLoggingIn = awaiting.login.isLoggingIn ∧
    (handleRegisterSubmit (.err none) awaiting).1.login.error = "Please enter a display name." ∧
    (handleRegisterSubmit (.err none) awaiting).1.store = awaiting.store ∧
    (handleRegisterSubmit (.err none) awaiting).1.user = awaiting.user ∧
    (∀ (w2 : World) (r2 : HttpResult),
      ((handleRegisterSubmit r2 w2).2).isSome = true →
      jsTrim w2.login.displayName ≠ "") :=
  c5_blank_name_rejected_locally
    { login := { error := "", isLoggingIn := false, isRegistering := true,
                 displayName := " ", googleToken := some "tok-B" },
      store := emptyStorage, user := none }
    (.err none) rfl (by decide)

/-- C6: a `register_required` body in the response to the second exchange
call is treated as a failure: the FlowError is set, the flow is back to an
interactive state (not in flight), storage and the host user are untouched
(never Authenticated), and the handler issued only the one request — nothing
further is sent without a new user action. -/
theorem c6_register_required_on_second_call_fails
    (w : World) (httpStatus : Nat) (body : RespBody)
    (hstatus : body.status = .vstr "register_required")
    (hname : jsTrim w.login.displayName ≠ "") :
    (handleRegisterSubmit (.ok httpStatus (some body)) w).1.login.error
        = "Registration failed." ∧
    (handleRegisterSubmit (.ok httpStatus (some body)) w).1.login.isLoggingIn = false ∧
    (handleRegisterSubmit (.ok httpStatus (some body)) w).1.store = w.store ∧
    (handleRegisterSubmit (.ok httpStatus (some body)) w).1.user = w.user ∧
    mountsDashboard (handleRegisterSubmit (.ok httpStatus (some body)) w).1.user
        = mountsDashboard w.user ∧
    (handleRegisterSubmit (.ok httpStatus (some body)) w).2
        = some { token := w.login.googleToken, name := some w.login.displayName } := by
  have hne : body.status ≠ .vstr "login_success" := by rw [hstatus]; simp
  refine ⟨?_, ?_, ?_, ?_, ?_, ?_⟩ <;>
    simp [handleRegisterSubmit, registerResolve, hname, hne]

/-- C6 witness: the statement at the concrete Submitting world of the spec's
registration scenario and a literal `register_required` second response. -/
theorem c6_register_required_on_second_call_fails_witness :
    let awaiting : World :=
      { login := { error := "", isLoggingIn := false, isRegistering := true,
                   displayName := "Grace", googleToken := some "tok-B" },
        store := emptyStorage, user := none }
    (handleRegisterSubmit (.ok 200 (some registerRequiredBody)) awaiting).1.login.error
        = "Registration failed." ∧
    (handleRegisterSubmit (.ok 200 (some registerRequiredBody)) awaiting).1.login.isLoggingIn = false ∧
    (handleRegisterSubmit (.ok 200 (some registerRequiredBody)) awaiting).1.store = awaiting.store ∧
    (handleRegisterSubmit (.ok 200 (some registerRequiredBody)) awaiting).1.user = awaiting.user ∧
    mountsDashboard (handleRegisterSubmit (.ok 200 (some registerRequiredBody)) awaiting).1.user
        = mountsDashboard awaiting.user ∧
    (handleRegisterSubmit (.ok 200 (some registerRequiredBody)) awaiting).2
        = some { token := awaiting.login.googleToken,
                 name := some awaiting.login.displayName } :=
  c6_register_required_on_second_call_fails
    { login := { error := "", isLoggingIn := false, isRegistering := true,
                 displayName := "Grace", googleToken := some "tok-B" },
      store := emptyStorage, user := none }
    200 registerRequiredBody rfl (by decide)

/-- Helper: the Dashboard's rendered name falls back to `"User"` whenever the
stored user name is not a string. -/
theorem dashboardDisplayName_fallback (u : UserData)
    (h : u.name.isString = false) : dashboardDisplayName u = "User" := by
  rcases u with ⟨n, t⟩
  cases n <;> simp_all [JsVal.isString, dashboardDisplayName]

/-- C9: a successful exchange response whose `username` is not a string still
reaches Authenticated, with the persisted user record's name being the
literal `"User"` (both in the host's user state and in durable storage),
the second exchange call behaves identically, and the Dashboard applies the
same fallback when rendering a non-string user name. -/
theorem c9_nonstring_username_falls_back
    (credential : String) (httpStatus : Nat) (body : RespBody) (w : World)
    (hstatus : body.status = .vstr "login_success")
    (hstr : body.username.isString = false) :
    (googleResolve credential (.ok httpStatus (some body)) w).user
        = some { name := .vstr "User", token := body.access_token } ∧
    (googleResolve credential (.ok httpStatus (some body)) w).store.user_data
        = some (.userJson { name := .vstr "User", token := body.access_token }) ∧
    mountsDashboard (googleResolve credential (.ok httpStatus (some body)) w).user
        = true ∧
    registerResolve (.ok httpStatus (some body)) w = handleLoginSuccess body w ∧
    (∀ u : UserData, u.name.isString = false → dashboardDisplayName u = "User") := by
  have hne : body.status ≠ .vstr "register_required" := by rw [hstatus]; simp
  refine ⟨?_, ?_, ?_, ?_, fun u hu => dashboardDisplayName_fallback u hu⟩ <;>
    rcases body with ⟨bs, ba, bu⟩ <;>
    cases bu <;>
    simp_all [googleResolve, registerResolve, handleLoginSuccess, JsVal.isString,
              mountsDashboard]

/-- C9 witness: the statement at a concrete success response whose username
is `null`. -/
theorem c9_nonstring_username_falls_back_witness :
    let body : RespBody := { status := .vstr "login_success",
                             access_token := .vstr "tok-9", username := .vnull }
    (googleResolve "cred-9" (.ok 200 (some body)) initialWorld).user
        = some { name := .vstr "User", token := body.access_token } ∧
    (googleResolve "cred-9" (.ok 200 (some body)) initialWorld).store.user_data
        = some (.userJson { name := .vstr "User", token := body.access_token }) ∧
    mountsDashboard (googleResolve "cred-9" (.ok 200 (some body)) initialWorld).user
        = true ∧
    registerResolve (.ok 200 (some body)) initialWorld
        = handleLoginSuccess body initialWorld ∧
    (∀ u : UserData, u.name.isString = false → dashboardDisplayName u = "User") :=
  c9_nonstring_username_falls_back "cred-9" 200
    { status := .vstr "login_success", access_token := .vstr "tok-9",
      username := .vnull }
    initialWorld rfl rfl

/-- Helper: `handleLoginSuccess` establishes the Session/authentication
equivalence outright — it fills both storage keys and sets the host user. -/
theorem sessionIffAuth_afterLoginSuccess (data : RespBody) (w : World) :
    sessionIffAuth (handleLoginSuccess data w).store (handleLoginSuccess data w).user := by
  simp [handleLoginSuccess, sessionIffAuth, sessionStored, mountsDashboard]

/-- Helper: the first call's continuation preserves the Session/authentication
equivalence — its failure branches touch neither storage nor the host user,
and its success branch goes through `handleLoginSuccess`. -/
theorem googleResolve_preserves_sessionIffAuth
    (credential : String) (resp : HttpResult) (w : World)
    (h : sessionIffAuth w.store w.user) :
    sessionIffAuth (googleResolve credential resp w).store
      (googleResolve credential resp w).user := by
  cases resp with
  | ok s d =>
    cases d with
    | none => simpa [googleResolve] using h
    | some body =>
      by_cases h1 : body.status = JsVal.vstr "register_required"
      · simpa [googleResolve, h1] using h
      · by_cases h2 : body.status = JsVal.vstr "login_success"
        · simpa [googleResolve, h1, h2] using sessionIffAuth_afterLoginSuccess body w
        · simpa [googleResolve, h1, h2] using h
  | err rs => simpa [googleResolve] using h

/-- Helper: the second call's continuation preserves the
Session/authentication equivalence. -/
theorem registerResolve_preserves_sessionIffAuth
    (resp : HttpResult) (w : World)
    (h : sessionIffAuth w.store w.user) :
    sessionIffAuth (registerResolve resp w).store (registerResolve resp w).user := by
  cases resp with
  | ok s d =>
    cases d with
    | none => simpa [registerResolve] using h
    | some body =>
      by_cases h2 : body.status = JsVal.vstr "login_success"
      · simpa [registerResolve, h2] using sessionIffAuth_afterLoginSuccess body w
      · simpa [registerResolve, h2] using h
  | err rs => simpa [registerResolve] using h

/-- Helper: on regular storage contents the startup load leaves storage and
the initial user state in the Session/authentication equivalence. -/
theorem appInit_sessionIffAuth_of_regular (st : Storage)
    (h : regularStorage st = true) :
    sessionIffAuth (appInit st).1 (appInit st).2 := by
  rcases st with ⟨a, u⟩
  cases a with
  | none => cases u <;> simp [appInit, sessionIffAuth, sessionStored, mountsDashboard]
  | some tok =>
    cases u with
    | none => simp [appInit, sessionIffAuth, sessionStored, mountsDashboard]
    | some blob =>
      cases blob with
      | userJson v =>
        simp only [regularStorage, Bool.and_eq_true, bne_iff_ne, ne_eq] at h
        simp [appInit, blobTruthy, h.1, sessionIffAuth, sessionStored, mountsDashboard]
      | jsonOther v =>
        simp [regularStorage] at h
      | corrupt s =>
        simp only [regularStorage, Bool.and_eq_true, bne_iff_ne, ne_eq] at h
        simp [appInit, blobTruthy, h.1, h.2, sessionIffAuth, sessionStored,
              mountsDashboard, emptyStorage]

/-- C4 fails on the code: with the backend answering `login_success` with an
empty `access_token` and username `"Ada"`, `handleLoginSuccess` stores a
Session whose token key holds `""` (the equivalence still holds at that
point), but at the next startup the `if (token && storedUser)` truthiness
guard treats the empty string as absent: both keys stay in durable storage
while the application starts unauthenticated, so the stored-Session and
authenticated states diverge. -/
theorem c4_startup_breaks_equivalence_on_empty_token :
    let body : RespBody := { status := .vstr "login_success",
                             access_token := .vstr "", username := .vstr "Ada" }
    let st0 : Storage := (handleLoginSuccess body initialWorld).store
    st0.access_token = some "" ∧
    st0.user_data = some (.userJson { name := .vstr "Ada", token := .vstr "" }) ∧
    sessionIffAuth (handleLoginSuccess body initialWorld).store
      (handleLoginSuccess body initialWorld).user ∧
    ¬ sessionIffAuth (appInit st0).1 (appInit st0).2 ∧
    sessionStored (appInit st0).1 ∧
    mountsDashboard (appInit st0).2 = false := by
  decide

/-- C4 as amended: a Session is present in durable storage (both keys)
exactly when the host considers the user authenticated (mounts the
Dashboard): `handleLoginSuccess` and logout each leave storage and the user
state in that equivalence unconditionally, the two exchange handlers preserve
it from any world satisfying it, and the startup load preserves it on every
regular storage content — degenerate contents (an empty-string token, an
empty-string `user_data`, or `user_data` that is valid JSON of a non-record),
which the startup truthiness guard skips without cleanup, are excluded. -/
theorem c4_session_iff_authenticated_on_regular_storage :
    (∀ st : Storage, regularStorage st = true →
      sessionIffAuth (appInit st).1 (appInit st).2) ∧
    (∀ (data : RespBody) (w : World),
      sessionIffAuth (handleLoginSuccess data w).store (handleLoginSuccess data w).user) ∧
    (∀ (st : Storage) (u : Option UserData),
      sessionIffAuth (handleLogout st u).1 (handleLogout st u).2) ∧
    (∀ (credential : String) (resp : HttpResult) (w : World),
      sessionIffAuth w.store w.user →
      sessionIffAuth (handleGoogleSuccess credential resp w).1.store
        (handleGoogleSuccess credential resp w).1.user) ∧
    (∀ (resp : HttpResult) (w : World),
      sessionIffAuth w.store w.user →
      sessionIffAuth (handleRegisterSubmit resp w).1.store
        (handleRegisterSubmit resp w).1.user) := by
  refine ⟨appInit_sessionIffAuth_of_regular, sessionIffAuth_afterLoginSuccess, ?_, ?_, ?_⟩
  · intro st u
    simp [handleLogout, sessionIffAuth, sessionStored, mountsDashboard, emptyStorage]
  · intro credential resp w h
    have hs : sessionIffAuth (googleStart w).store (googleStart w).user := by
      simpa [googleStart] using h
    simpa [handleGoogleSuccess] using
      googleResolve_preserves_sessionIffAuth credential resp (googleStart w) hs
  · intro resp w h
    by_cases hb : jsTrim w.login.displayName = ""
    · simpa [handleRegisterSubmit, hb] using h
    · have hs :
          sessionIffAuth ({ w with login := { w.login with isLoggingIn := true } } : World).store
            ({ w with login := { w.login with isLoggingIn := true } } : World).user := by
        simpa using h
      simpa [handleRegisterSubmit, hb] using
        registerResolve_preserves_sessionIffAuth resp
          { w with login := { w.login with isLoggingIn := true } } hs

/-- C4 amended witness: the startup clause applied at a concrete regular
storage holding a full Session, its regularity discharged by computation. -/
theorem c4_session_iff_authenticated_on_regular_storage_witness :
    sessionIffAuth
      (appInit { access_token := some "abc",
                 user_data := some (.userJson { name := .vstr "Ada",
                                                token := .vstr "abc" }) }).1
      (appInit { access_token := some "abc",
                 user_data := some (.userJson { name := .vstr "Ada",
                                                token := .vstr "abc" }) }).2 :=
  c4_session_iff_authenticated_on_regular_storage.1
    { access_token := some "abc",
      user_data := some (.userJson { name := .vstr "Ada", token := .vstr "abc" }) }
    (by decide)
